import Mathlib

/-
Verification development for the L-E-G processor simulator.

The Rust sources (src/memory.rs, src/instructions.rs, src/control_unit.rs)
are embedded shallowly:

* Machine integers (u32, u16, i32) are modelled as Nat (resp. Int), with
  two's-complement wrap-around applied explicitly (mod 2^32 / 2^16) at every
  arithmetic operation the source performs, matching the release-profile
  semantics of Rust integer arithmetic.  Integer division by zero, which
  panics in every build profile, signed division overflow (i32::MIN / -1,
  which also panics in every profile), out-of-range values passed to the
  bit_field crate setters (which assert), and out-of-bounds Vec indexing
  are modelled as Option.none.
* HashMap<u32, u32> is modelled as an association list whose insert
  replaces the previous binding of the key.
* Rc<RefCell<dyn Memory>> aliasing (the cache and the control unit share
  one DRAM) is modelled by threading the single DRAM value explicitly
  through the cache operations.
* The SimResult type lives in src/result.rs which is not part of the
  sources at hand; it is modelled from the spec (see below).
-/

namespace LEG

/-- Modulus of the u32 type. -/
def U32M : Nat := 4294967296

/-- Modulus of the u16 type. -/
def U16M : Nat := 65536

/-- Wrapping u32 addition. -/
def u32add (a b : Nat) : Nat := (a + b) % U32M

/-- Wrapping u32 subtraction. -/
def u32sub (a b : Nat) : Nat := (a % U32M + U32M - b % U32M) % U32M

/-- Wrapping u32 multiplication. -/
def u32mul (a b : Nat) : Nat := (a * b) % U32M

/-- Wrapping u16 addition (the wait accumulators in the cache are u16). -/
def u16add (a b : Nat) : Nat := (a + b) % U16M

/-- Reinterpret a u32 bit pattern as an i32 value. -/
def toI32 (n : Nat) : Int :=
  if n % U32M < 2 ^ 31 then ((n % U32M : Nat) : Int)
  else ((n % U32M : Nat) : Int) - (U32M : Int)

/-- Wrap an Int to the i32 value range (two's complement). -/
def wrapI32 (z : Int) : Int := (z + 2 ^ 31) % (U32M : Int) - 2 ^ 31

/-- Reinterpret an i32 value as a u32 bit pattern. -/
def i32toU32 (z : Int) : Nat := (z % (U32M : Int)).toNat

/-- The bit_field crate getter x.get_bits(lo..=hi): bits lo through hi inclusive. -/
def getBits (x lo hi : Nat) : Nat := (x >>> lo) % 2 ^ (hi + 1 - lo)

/-- The bit_field crate setter x.set_bits(lo..=hi, v).  The crate asserts that
the range is a valid non-empty subrange of 0..=31 and that the value fits in
it; a failed assertion (a panic) is none. -/
def setBits (x lo hi v : Nat) : Option Nat :=
  if lo ≤ hi ∧ hi ≤ 31 ∧ v < 2 ^ (hi + 1 - lo) then
    some ((x >>> (hi + 1)) <<< (hi + 1) + v <<< lo + x % 2 ^ lo)
  else none

/-- Modelled from the spec: the Result carrier of src/result.rs, a sum
conveying either a latency-annotated success Wait(cycles, value) or an error
message.  The spec also allows a Done variant merged with Wait(0, _); the
sources exhaustively match on exactly the Wait and Err constructors, so the
type has exactly those two. -/
inductive SimResult (α : Type) where
  | Wait : Nat → α → SimResult α
  | Err : String → SimResult α
deriving DecidableEq, Repr

/-- Register file: 32 u32 words (src/memory.rs Registers). -/
abbrev Registers := List Nat

/-- Interrupt link register index. -/
def INTLR : Nat := 26

/-- Interrupt handler register index. -/
def IHDLR : Nat := 27

/-- Program counter register index. -/
def PC : Nat := 28

/-- Status register index. -/
def STS : Nat := 29

/-- Stack pointer register index. -/
def SP : Nat := 30

/-- Link register index. -/
def LR : Nat := 31

/-- Registers::new(): all 32 registers zero. -/
def registersNew : Registers := List.replicate 32 0

/-- registers[idx] (the Index impl).  Every register index the instructions
produce is a 5-bit field, hence in range; getD matches the in-range reads. -/
def regGet (rs : Registers) (i : Nat) : Nat := rs.getD i 0

/-- registers[idx] = v (the IndexMut impl). -/
def regSet (rs : Registers) (i v : Nat) : Registers := rs.set i v

/-- Association-list model of HashMap: lookup. -/
def mapGet (m : List (Nat × Nat)) (k : Nat) : Option Nat :=
  (m.find? (fun p => p.1 == k)).map (fun p => p.2)

/-- Association-list model of HashMap: insert replaces any previous binding. -/
def mapInsert (m : List (Nat × Nat)) (k v : Nat) : List (Nat × Nat) :=
  (k, v) :: m.filter (fun p => p.1 != k)

/-- src/memory.rs DRAM: access delay plus sparse address-to-word map. -/
structure DRAM where
  delay : Nat
  data : List (Nat × Nat)
deriving DecidableEq, Repr

/-- DRAM::new. -/
def dramNew (delay : Nat) : DRAM := { delay := delay, data := [] }

/-- DRAM::get: a present address returns its value; an absent one is
materialized as 0 and returned.  Latency is always the fixed delay. -/
def dramGet (d : DRAM) (address : Nat) : DRAM × SimResult Nat :=
  match mapGet d.data address with
  | some v => (d, SimResult.Wait d.delay v)
  | none => ({ d with data := mapInsert d.data address 0 }, SimResult.Wait d.delay 0)

/-- DRAM::set: unconditional write with the fixed delay. -/
def dramSet (d : DRAM) (address v : Nat) : DRAM × SimResult Unit :=
  ({ d with data := mapInsert d.data address v }, SimResult.Wait d.delay ())

/-- The big-endian 32-bit word DRAM::load_from_reader assembles from one
4-byte group (the source ors buf[3] with buf[2]<<8, buf[1]<<16, buf[0]<<24). -/
def beWord (b0 b1 b2 b3 : Nat) : Nat :=
  b3 ||| (b2 <<< 8) ||| (b1 <<< 16) ||| (b0 <<< 24)

/-- DRAM::load_from_reader loop: the reader yields min(4, remaining) bytes
per read; 0 bytes is EOF (Ok), a short non-empty group is an error, and a
full group is stored at the running address which is then incremented
(wrapping u32 increment). -/
def dramLoadGo (d : DRAM) (addr : Nat) : List Nat → Except String DRAM
  | [] => Except.ok d
  | b0 :: b1 :: b2 :: b3 :: rest =>
      dramLoadGo { d with data := mapInsert d.data addr (beWord b0 b1 b2 b3) }
        (u32add addr 1) rest
  | _ => Except.error "Read fewer than 4 bytes from buffer but expected 4 bytes"

/-- DRAM::load_from_reader on a byte stream, starting at address 0. -/
def dramLoadFromReader (d : DRAM) (bs : List Nat) : Except String DRAM :=
  dramLoadGo d 0 bs

/-- Word k of a byte stream, as the loader assembles it. -/
def chunkWord (bs : List Nat) (k : Nat) : Nat :=
  beWord (bs.getD (4 * k) 0) (bs.getD (4 * k + 1) 0)
    (bs.getD (4 * k + 2) 0) (bs.getD (4 * k + 3) 0)

/-- src/memory.rs DMCacheLine: one direct-mapped cache line. -/
structure DMCacheLine where
  tag : Nat
  data : Nat
  valid : Bool
  dirty : Bool
deriving DecidableEq, Repr

/-- DMCacheLine::new. -/
def dmCacheLineNew : DMCacheLine :=
  { tag := 0, data := 0, valid := false, dirty := false }

/-- src/memory.rs DMCache, without the base pointer: the base memory (the
DRAM the cache wraps, shared with the control unit) is threaded through the
operations explicitly. -/
structure DMCache where
  delay : Nat
  num_lines : Nat
  idx_bits : Nat
  tag_bits : Nat
  lines : List DMCacheLine
deriving DecidableEq, Repr

/-- Fuel-bounded ceil(log2 n): 64 halving steps cover every usize the cache
constructor can receive; written with structural recursion so that concrete
cache states reduce in the kernel. -/
def ceilLog2Aux : Nat → Nat → Nat
  | 0, _ => 0
  | fuel + 1, n => if n ≤ 1 then 0 else ceilLog2Aux fuel ((n + 1) / 2) + 1

/-- ceil(log2 n), the idx_bits computation of DMCache::new (the source does
it in f32 arithmetic, exact for the line counts in range). -/
def ceilLog2 (n : Nat) : Nat := ceilLog2Aux 64 n

/-- DMCache::new: idx_bits = ceil(log2 num_lines), tag_bits = 32 - idx_bits,
all lines initially invalid. -/
def dmNew (delay num_lines : Nat) : DMCache :=
  { delay := delay
    num_lines := num_lines
    idx_bits := ceilLog2 num_lines
    tag_bits := 32 - ceilLog2 num_lines
    lines := List.replicate num_lines dmCacheLineNew }

/-- DMCache::get_address_index: address.get_bits(0..=idx_bits-1).  When
idx_bits is 0 the usize subtraction wraps and the bit_field range assertion
panics (none). -/
def getAddressIndex (c : DMCache) (address : Nat) : Option Nat :=
  if c.idx_bits = 0 then none
  else some (getBits address 0 (c.idx_bits - 1))

/-- DMCache::get_address_tag: address >> idx_bits. -/
def getAddressTag (c : DMCache) (address : Nat) : Nat :=
  address >>> c.idx_bits

/-- DMCache::get_idx_address: reconstructs a full address from a line index
and tag by set_bits(0..=tag_bits-1, idx) followed by
set_bits(tag_bits..=31, tag), exactly as the source writes it (note that the
source uses tag_bits, not idx_bits, as the boundary). -/
def getIdxAddress (c : DMCache) (idx tag : Nat) : Option Nat :=
  if c.tag_bits = 0 then none
  else
    match setBits 0 0 (c.tag_bits - 1) idx with
    | none => none
    | some a1 => setBits a1 c.tag_bits 31 tag

/-- DMCache::get over a DRAM base.  Hit: the line value with the cache
delay.  Miss: evict a valid dirty conflicting line by writing its data to
the requested address through the base (as the source does), fetch from the
base, install the line clean, and return the accumulated wait. -/
def dmGet (c : DMCache) (base : DRAM) (address : Nat) :
    Option (DMCache × DRAM × SimResult Nat) :=
  match getAddressIndex c address with
  | none => none
  | some idx =>
    let tag := getAddressTag c address
    match c.lines.get? idx with
    | none => none
    | some line =>
      if line.valid = true ∧ line.tag = tag then
        some (c, base, SimResult.Wait c.delay line.data)
      else
        let w0 := c.delay
        let (base1, w1) :=
          if line.valid = true ∧ line.tag ≠ tag ∧ line.dirty = true then
            match dramSet base address line.data with
            | (b, SimResult.Wait wc _) => (b, u16add w0 wc)
            | (b, SimResult.Err _) => (b, w0)
          else (base, w0)
        match dramGet base1 address with
        | (base2, SimResult.Wait wg d) =>
          let newLine : DMCacheLine :=
            { valid := true, dirty := false, tag := tag, data := d }
          let c2 := { c with lines := c.lines.set idx newLine }
          some (c2, base2, SimResult.Wait (u16add w1 wg) d)
        | (base2, SimResult.Err e) =>
          some (c, base2, SimResult.Err
            ("failed to get line value from base cache: " ++ e))

/-- DMCache::set over a DRAM base.  Tag match: mark dirty and store.  Miss:
evict a valid dirty conflicting line to its reconstructed old address
(get_idx_address), then install the new line valid and dirty. -/
def dmSet (c : DMCache) (base : DRAM) (address v : Nat) :
    Option (DMCache × DRAM × SimResult Unit) :=
  match getAddressIndex c address with
  | none => none
  | some idx =>
    let tag := getAddressTag c address
    match c.lines.get? idx with
    | none => none
    | some line =>
      if line.valid = true ∧ line.tag = tag then
        let newLine : DMCacheLine := { line with dirty := true, data := v }
        let c1 := { c with lines := c.lines.set idx newLine }
        some (c1, base, SimResult.Wait c.delay ())
      else
        let w0 := c.delay
        if line.valid = true ∧ line.tag ≠ tag ∧ line.dirty = true then
          match getIdxAddress c idx line.tag with
          | none => none
          | some old_addr =>
            match dramSet base old_addr line.data with
            | (base1, SimResult.Wait wc _) =>
              let newLine : DMCacheLine :=
                { valid := true, dirty := true, tag := tag, data := v }
              let c1 := { c with lines := c.lines.set idx newLine }
              some (c1, base1, SimResult.Wait (u16add w0 wc) ())
            | (base1, SimResult.Err e) =>
              some (c, base1, SimResult.Err
                ("failed to write out old line value when evicting: " ++ e))
        else
          let newLine : DMCacheLine :=
            { valid := true, dirty := true, tag := tag, data := v }
          let c1 := { c with lines := c.lines.set idx newLine }
          some (c1, base, SimResult.Wait w0 ())

/-- u32 left shift (release semantics: the shift amount is masked to 5 bits). -/
def u32shl (a b : Nat) : Nat := ((a % U32M) <<< (b % 32)) % U32M

/-- u32 logical right shift (shift amount masked to 5 bits). -/
def u32shr (a b : Nat) : Nat := (a % U32M) >>> (b % 32)

/-- i32 left shift (shift amount taken from the low 5 bits of the rhs bit
pattern, result wrapped). -/
def i32shl (a b : Int) : Int := wrapI32 (a * 2 ^ (i32toU32 b % 32))

/-- i32 arithmetic right shift (sign extending), shift amount from the low
5 bits of the rhs bit pattern. -/
def i32shr (a b : Int) : Int := Int.fdiv a (2 ^ (i32toU32 b % 32))

/-- u32 bitwise complement. -/
def u32not (a : Nat) : Nat := (a % U32M) ^^^ (U32M - 1)

/-- src/instructions.rs AddrMode. -/
inductive AddrMode where
  | RegisterDirect
  | Immediate
deriving DecidableEq, Repr

/-- src/instructions.rs ArithMode. -/
inductive ArithMode where
  | Add
  | Sub
  | Mul
  | Div
deriving DecidableEq, Repr

/-- src/instructions.rs LogicType. -/
inductive LogicType where
  | And
  | Or
  | Xor
deriving DecidableEq, Repr

/-- The decoded instruction objects of src/instructions.rs: one constructor
per implementing struct, whose arguments are that struct's mutable fields.
SIH and INT exist in the source but are never produced by the instruction
factory (their opcodes are commented out), so they are omitted. -/
inductive Inst where
  | noop
  | halt
  | load (mem_addr_mode : AddrMode) (dest_reg mem_addr value : Nat)
  | store (mem_addr_mode : AddrMode) (dest_addr value : Nat)
  | push (addr value : Nat)
  | pop (dest addr value : Nat)
  | move (dest value : Nat)
  | arithSign (mem_addr_mode : AddrMode) (dest : Nat) (operation : ArithMode)
      (op1 op2 result : Int)
  | arithUnsign (mem_addr_mode : AddrMode) (dest : Nat) (operation : ArithMode)
      (op1 op2 result : Nat)
  | comp (op1 op2 : Nat)
  | ashift (mem_addr_mode : AddrMode) (direction : Bool) (dest opv amount result : Nat)
  | lshift (mem_addr_mode : AddrMode) (direction : Bool) (dest : Nat)
      (opv amount result : Int)
  | threeOpLogic (mem_addr_mode : AddrMode) (opType : LogicType)
      (dest op1 op2 result : Nat)
  | notOp (dest opv result : Nat)
  | jump (mem_addr_mode : AddrMode) (is_sub : Bool) (condition addr : Nat)
  | rfi
deriving DecidableEq, Repr

/-- The PC-relative value (registers[PC] + 1 as i32) + (bits[15..=31] as i32)
as u32, used by Load and Store decode in Immediate mode (note that the 17-bit
field is zero extended by the `as i32` cast, not sign extended). -/
def pcRelValue (instruction : Nat) (rs : Registers) : Nat :=
  i32toU32 (wrapI32 (toI32 (u32add (regGet rs PC) 1) + (getBits instruction 15 31 : Int)))

/-- Instruction::decode for every instruction kind (src/instructions.rs).
Each implementation extracts its operand fields and returns Wait(0, ()). -/
def instDecode (i : Inst) (instruction : Nat) (rs : Registers) :
    Inst × SimResult Unit :=
  match i with
  | Inst.noop => (i, SimResult.Wait 0 ())
  | Inst.halt => (i, SimResult.Wait 0 ())
  | Inst.rfi => (i, SimResult.Wait 0 ())
  | Inst.load m _ _ v =>
    let dest := getBits instruction 10 14
    let addr :=
      match m with
      | AddrMode.RegisterDirect => regGet rs (getBits instruction 15 19)
      | AddrMode.Immediate => pcRelValue instruction rs
    (Inst.load m dest addr v, SimResult.Wait 0 ())
  | Inst.store m _ _ =>
    let dest_addr := regGet rs (getBits instruction 10 14)
    let v :=
      match m with
      | AddrMode.RegisterDirect => regGet rs (getBits instruction 15 19)
      | AddrMode.Immediate => pcRelValue instruction rs
    (Inst.store m dest_addr v, SimResult.Wait 0 ())
  | Inst.push _ _ =>
    (Inst.push (regGet rs (getBits instruction 11 15)) (u32sub (regGet rs SP) 1),
      SimResult.Wait 0 ())
  | Inst.pop _ _ v =>
    (Inst.pop (getBits instruction 11 15) (regGet rs SP) v, SimResult.Wait 0 ())
  | Inst.move _ _ =>
    (Inst.move (getBits instruction 13 17) (regGet rs (getBits instruction 18 22)),
      SimResult.Wait 0 ())
  | Inst.arithSign m _ op _ _ r =>
    let dest := getBits instruction 14 18
    let op1 := toI32 (regGet rs (getBits instruction 19 23))
    let op2 : Int :=
      match m with
      | AddrMode.RegisterDirect => toI32 (regGet rs (getBits instruction 24 28))
      | AddrMode.Immediate => (getBits instruction 24 31 : Int)
    (Inst.arithSign m dest op op1 op2 r, SimResult.Wait 0 ())
  | Inst.arithUnsign m _ op _ _ r =>
    let dest := getBits instruction 13 17
    let op1 := regGet rs (getBits instruction 18 22)
    let op2 :=
      match m with
      | AddrMode.RegisterDirect => regGet rs (getBits instruction 23 27)
      | AddrMode.Immediate => getBits instruction 23 31
    (Inst.arithUnsign m dest op op1 op2 r, SimResult.Wait 0 ())
  | Inst.comp _ _ =>
    (Inst.comp (regGet rs (getBits instruction 13 17))
      (regGet rs (getBits instruction 18 22)), SimResult.Wait 0 ())
  | Inst.ashift m d _ _ _ r =>
    let dest := getBits instruction 13 17
    let amount :=
      match m with
      | AddrMode.RegisterDirect => regGet rs (getBits instruction 18 22)
      | AddrMode.Immediate => getBits instruction 18 31
    (Inst.ashift m d dest (regGet rs dest) amount r, SimResult.Wait 0 ())
  | Inst.lshift m d _ _ _ r =>
    let dest := getBits instruction 13 17
    let amount : Int :=
      match m with
      | AddrMode.RegisterDirect => toI32 (regGet rs (getBits instruction 18 22))
      | AddrMode.Immediate => (getBits instruction 18 31 : Int)
    (Inst.lshift m d dest (toI32 (regGet rs dest)) amount r, SimResult.Wait 0 ())
  | Inst.threeOpLogic m lt _ _ _ r =>
    let dest := getBits instruction 13 17
    let op1 := regGet rs (getBits instruction 18 22)
    let op2 :=
      match m with
      | AddrMode.RegisterDirect => regGet rs (getBits instruction 23 27)
      | AddrMode.Immediate => getBits instruction 23 31
    (Inst.threeOpLogic m lt dest op1 op2 r, SimResult.Wait 0 ())
  | Inst.notOp _ _ r =>
    (Inst.notOp (getBits instruction 13 17) (regGet rs (getBits instruction 18 22)) r,
      SimResult.Wait 0 ())
  | Inst.jump m s _ _ =>
    let cond := getBits instruction 0 4
    let addr :=
      match m with
      | AddrMode.RegisterDirect => regGet rs (getBits instruction 10 14)
      | AddrMode.Immediate => getBits instruction 10 31
    (Inst.jump m s cond addr, SimResult.Wait 0 ())

/-- Instruction::execute for every instruction kind.  The arithmetic
instructions use unguarded native arithmetic: division by zero (and signed
division overflow) panics, modelled as none; every returned SimResult is
Wait(0, ()). -/
def instExecute (i : Inst) : Option (Inst × SimResult Unit) :=
  match i with
  | Inst.arithSign m dest op op1 op2 _ =>
    match op with
    | ArithMode.Add =>
      some (Inst.arithSign m dest op op1 op2 (wrapI32 (op1 + op2)), SimResult.Wait 0 ())
    | ArithMode.Sub =>
      some (Inst.arithSign m dest op op1 op2 (wrapI32 (op1 - op2)), SimResult.Wait 0 ())
    | ArithMode.Mul =>
      some (Inst.arithSign m dest op op1 op2 (wrapI32 (op1 * op2)), SimResult.Wait 0 ())
    | ArithMode.Div =>
      if op2 = 0 ∨ (op1 = -(2 ^ 31 : Int) ∧ op2 = -1) then none
      else some (Inst.arithSign m dest op op1 op2 (Int.tdiv op1 op2), SimResult.Wait 0 ())
  | Inst.arithUnsign m dest op op1 op2 _ =>
    match op with
    | ArithMode.Add =>
      some (Inst.arithUnsign m dest op op1 op2 (u32add op1 op2), SimResult.Wait 0 ())
    | ArithMode.Sub =>
      some (Inst.arithUnsign m dest op op1 op2 (u32sub op1 op2), SimResult.Wait 0 ())
    | ArithMode.Mul =>
      some (Inst.arithUnsign m dest op op1 op2 (u32mul op1 op2), SimResult.Wait 0 ())
    | ArithMode.Div =>
      if op2 = 0 then none
      else some (Inst.arithUnsign m dest op op1 op2 (op1 / op2), SimResult.Wait 0 ())
  | Inst.ashift m d dest opv amount _ =>
    let r := if d = true then u32shl opv amount else u32shr opv amount
    some (Inst.ashift m d dest opv amount r, SimResult.Wait 0 ())
  | Inst.lshift m d dest opv amount _ =>
    let r := if d = true then i32shl opv amount else i32shr opv amount
    some (Inst.lshift m d dest opv amount r, SimResult.Wait 0 ())
  | Inst.threeOpLogic m lt dest op1 op2 _ =>
    let r :=
      match lt with
      | LogicType.And => op1 &&& op2
      | LogicType.Or => op1 ||| op2
      | LogicType.Xor => op1 ^^^ op2
    some (Inst.threeOpLogic m lt dest op1 op2 r, SimResult.Wait 0 ())
  | _ => some (i, SimResult.Wait 0 ())

/-- The memory system an instruction accesses: either the cache over the
DRAM (cache enabled) or the DRAM directly, mirroring the Rc chosen by
ControlUnit::step. -/
def memSysGet (cacheEnabled : Bool) (c : DMCache) (d : DRAM) (a : Nat) :
    Option (DMCache × DRAM × SimResult Nat) :=
  if cacheEnabled = true then dmGet c d a
  else
    let r := dramGet d a
    some (c, r.1, r.2)

/-- Memory-system write, routed like memSysGet. -/
def memSysSet (cacheEnabled : Bool) (c : DMCache) (d : DRAM) (a v : Nat) :
    Option (DMCache × DRAM × SimResult Unit) :=
  if cacheEnabled = true then dmSet c d a v
  else
    let r := dramSet d a v
    some (c, r.1, r.2)

/-- Instruction::access_memory for every instruction kind.  Load and Pop
read, Store and Push write; every other kind is Wait(0, ()).  Memory errors
are surfaced wrapped with context. -/
def instAccessMemory (i : Inst) (cacheEnabled : Bool) (c : DMCache) (d : DRAM) :
    Option (Inst × DMCache × DRAM × SimResult Unit) :=
  match i with
  | Inst.load m dest addr _ =>
    match memSysGet cacheEnabled c d addr with
    | none => none
    | some (c1, d1, SimResult.Err e) =>
      some (i, c1, d1, SimResult.Err
        ("failed to retrieve memory address " ++ toString addr ++ ": " ++ e))
    | some (c1, d1, SimResult.Wait w v) =>
      some (Inst.load m dest addr v, c1, d1, SimResult.Wait w ())
  | Inst.store _ dest_addr v =>
    match memSysSet cacheEnabled c d dest_addr v with
    | none => none
    | some (c1, d1, SimResult.Err e) =>
      some (i, c1, d1, SimResult.Err
        ("Failed to store value in " ++ toString dest_addr ++ ": " ++ e))
    | some (c1, d1, SimResult.Wait w _) =>
      some (i, c1, d1, SimResult.Wait w ())
  | Inst.push addr v =>
    match memSysSet cacheEnabled c d addr v with
    | none => none
    | some (c1, d1, SimResult.Err e) =>
      some (i, c1, d1, SimResult.Err
        ("Failed to Push value in " ++ toString addr ++ ": " ++ e))
    | some (c1, d1, SimResult.Wait w _) =>
      some (i, c1, d1, SimResult.Wait w ())
  | Inst.pop dest addr _ =>
    match memSysGet cacheEnabled c d addr with
    | none => none
    | some (c1, d1, SimResult.Err e) =>
      some (i, c1, d1, SimResult.Err
        ("failed to Pop " ++ toString addr ++ ": " ++ e))
    | some (c1, d1, SimResult.Wait w v) =>
      some (Inst.pop dest addr v, c1, d1, SimResult.Wait w ())
  | _ => some (i, c, d, SimResult.Wait 0 ())

/-- Instruction::write_back for every instruction kind.  Note two source
peculiarities kept faithfully: Jump writes the constant (PC + 1) = 29 (the
register index plus one, not the program counter value) into LR, and only on
the taken-conditional path; RFI compares and stores the InterruptCodes enum
discriminants (NOT_SET_INITIAL = 7, NOT_SET = 8) because the source casts
the variants with `as u32` instead of calling value(). -/
def instWriteBack (i : Inst) (rs : Registers) :
    Inst × Registers × SimResult Unit :=
  match i with
  | Inst.load _ dest _ v => (i, regSet rs dest v, SimResult.Wait 0 ())
  | Inst.push _ _ =>
    (i, regSet rs SP (u32sub (regGet rs SP) 1), SimResult.Wait 0 ())
  | Inst.pop dest _ v =>
    let rs1 := regSet rs dest v
    (i, regSet rs1 SP (u32add (regGet rs1 SP) 1), SimResult.Wait 0 ())
  | Inst.move dest v => (i, regSet rs dest v, SimResult.Wait 0 ())
  | Inst.arithSign _ dest _ _ _ r =>
    (i, regSet rs dest (i32toU32 r), SimResult.Wait 0 ())
  | Inst.arithUnsign _ dest _ _ _ r => (i, regSet rs dest r, SimResult.Wait 0 ())
  | Inst.comp op1 op2 =>
    let sts := if op1 < op2 then 4 else if op1 > op2 then 3 else 2
    (i, regSet rs STS sts, SimResult.Wait 0 ())
  | Inst.ashift _ _ dest _ _ r => (i, regSet rs dest r, SimResult.Wait 0 ())
  | Inst.lshift _ _ dest _ _ r =>
    (i, regSet rs dest (i32toU32 r), SimResult.Wait 0 ())
  | Inst.threeOpLogic _ _ dest _ _ r => (i, regSet rs dest r, SimResult.Wait 0 ())
  | Inst.notOp dest opv _ => (i, regSet rs dest (u32not opv), SimResult.Wait 0 ())
  | Inst.jump _ s cond addr =>
    if cond ≠ 0 then
      if cond = regGet rs STS then
        let rs1 := if s = true then regSet rs LR (PC + 1) else rs
        (i, regSet rs1 PC addr, SimResult.Wait 0 ())
      else (i, rs, SimResult.Wait 0 ())
    else (i, regSet rs PC addr, SimResult.Wait 0 ())
  | Inst.rfi =>
    if regGet rs STS ≠ 7 then
      let rs1 := regSet rs STS 8
      (i, regSet rs1 PC (regGet rs1 INTLR), SimResult.Wait 0 ())
    else (i, rs, SimResult.Wait 0 ())
  | _ => (i, rs, SimResult.Wait 0 ())

/-- ControlUnit::instruction_factory: dispatch on the type bits [5..=6] and
the opcode field (bits [7..=9] for Control and Memory, bits [7..=12] for
ALU), constructing the fresh instruction object.  Unknown opcodes and types
are errors. -/
def instructionFactory (ibits : Nat) : Except String Inst :=
  let itype := getBits ibits 5 6
  if itype = 2 then
    let iop := getBits ibits 7 9
    if iop = 0 then Except.ok (Inst.load AddrMode.RegisterDirect 0 0 0)
    else if iop = 1 then Except.ok (Inst.load AddrMode.Immediate 0 0 0)
    else if iop = 2 then Except.ok (Inst.store AddrMode.RegisterDirect 0 0)
    else if iop = 3 then Except.ok (Inst.store AddrMode.Immediate 0 0)
    else if iop = 4 then Except.ok (Inst.push 0 0)
    else if iop = 5 then Except.ok (Inst.pop 0 0 0)
    else Except.error ("Invalid operation code " ++ toString iop ++
      " for mememory type instruction")
  else if itype = 0 then
    let iop := getBits ibits 7 9
    if iop = 0 then Except.ok Inst.halt
    else if iop = 1 then Except.ok (Inst.jump AddrMode.RegisterDirect false 0 0)
    else if iop = 2 then Except.ok (Inst.jump AddrMode.Immediate false 0 0)
    else if iop = 3 then Except.ok (Inst.jump AddrMode.RegisterDirect true 0 0)
    else if iop = 4 then Except.ok (Inst.jump AddrMode.Immediate true 0 0)
    else if iop = 5 then Except.ok Inst.rfi
    else if iop = 6 then Except.ok Inst.noop
    else Except.error ("Invalid operation code " ++ toString iop ++
      " for Control type instruction")
  else if itype = 1 then
    let iop := getBits ibits 7 12
    if iop = 16 then Except.ok (Inst.move 0 0)
    else if iop = 0 then
      Except.ok (Inst.arithUnsign AddrMode.RegisterDirect 0 ArithMode.Add 0 0 0)
    else if iop = 1 then
      Except.ok (Inst.arithUnsign AddrMode.Immediate 0 ArithMode.Add 0 0 0)
    else if iop = 2 then
      Except.ok (Inst.arithSign AddrMode.RegisterDirect 0 ArithMode.Add 0 0 0)
    else if iop = 3 then
      Except.ok (Inst.arithSign AddrMode.Immediate 0 ArithMode.Add 0 0 0)
    else if iop = 4 then
      Except.ok (Inst.arithUnsign AddrMode.RegisterDirect 0 ArithMode.Sub 0 0 0)
    else if iop = 5 then
      Except.ok (Inst.arithUnsign AddrMode.Immediate 0 ArithMode.Sub 0 0 0)
    else if iop = 6 then
      Except.ok (Inst.arithSign AddrMode.RegisterDirect 0 ArithMode.Sub 0 0 0)
    else if iop = 7 then
      Except.ok (Inst.arithSign AddrMode.Immediate 0 ArithMode.Sub 0 0 0)
    else if iop = 8 then
      Except.ok (Inst.arithUnsign AddrMode.RegisterDirect 0 ArithMode.Mul 0 0 0)
    else if iop = 9 then
      Except.ok (Inst.arithUnsign AddrMode.Immediate 0 ArithMode.Mul 0 0 0)
    else if iop = 10 then
      Except.ok (Inst.arithSign AddrMode.RegisterDirect 0 ArithMode.Mul 0 0 0)
    else if iop = 11 then
      Except.ok (Inst.arithSign AddrMode.Immediate 0 ArithMode.Mul 0 0 0)
    else if iop = 12 then
      Except.ok (Inst.arithUnsign AddrMode.RegisterDirect 0 ArithMode.Div 0 0 0)
    else if iop = 13 then
      Except.ok (Inst.arithUnsign AddrMode.Immediate 0 ArithMode.Div 0 0 0)
    else if iop = 14 then
      Except.ok (Inst.arithSign AddrMode.RegisterDirect 0 ArithMode.Div 0 0 0)
    else if iop = 15 then
      Except.ok (Inst.arithSign AddrMode.Immediate 0 ArithMode.Div 0 0 0)
    else if iop = 17 then Except.ok (Inst.comp 0 0)
    else if iop = 19 then Except.ok (Inst.ashift AddrMode.RegisterDirect false 0 0 0 0)
    else if iop = 20 then Except.ok (Inst.ashift AddrMode.Immediate false 0 0 0 0)
    else if iop = 21 then Except.ok (Inst.ashift AddrMode.RegisterDirect true 0 0 0 0)
    else if iop = 22 then Except.ok (Inst.ashift AddrMode.Immediate true 0 0 0 0)
    else if iop = 23 then Except.ok (Inst.lshift AddrMode.RegisterDirect false 0 0 0 0)
    else if iop = 24 then Except.ok (Inst.lshift AddrMode.Immediate false 0 0 0 0)
    else if iop = 25 then Except.ok (Inst.lshift AddrMode.RegisterDirect true 0 0 0 0)
    else if iop = 26 then Except.ok (Inst.lshift AddrMode.Immediate true 0 0 0 0)
    else if iop = 27 then
      Except.ok (Inst.threeOpLogic AddrMode.RegisterDirect LogicType.And 0 0 0 0)
    else if iop = 28 then
      Except.ok (Inst.threeOpLogic AddrMode.Immediate LogicType.And 0 0 0 0)
    else if iop = 29 then
      Except.ok (Inst.threeOpLogic AddrMode.RegisterDirect LogicType.Or 0 0 0 0)
    else if iop = 30 then
      Except.ok (Inst.threeOpLogic AddrMode.Immediate LogicType.Or 0 0 0 0)
    else if iop = 31 then
      Except.ok (Inst.threeOpLogic AddrMode.RegisterDirect LogicType.Xor 0 0 0 0)
    else if iop = 32 then
      Except.ok (Inst.threeOpLogic AddrMode.Immediate LogicType.Xor 0 0 0 0)
    else if iop = 33 then Except.ok (Inst.notOp 0 0 0)
    else Except.error ("Invalid operation code " ++ toString iop ++
      " for ALU type instruction")
  else Except.error ("Invalid type value " ++ toString itype ++ " for instruction")

/-- src/control_unit.rs ControlUnit.  The dram and cache fields model the two
shared memory objects (the cache wraps the dram). -/
structure ControlUnit where
  pipeline_enabled : Bool
  cache_enabled : Bool
  cycle_count : Nat
  registers : Registers
  dram : DRAM
  cache : DMCache
  first_instruction_loaded : Bool
  halt_encountered : Bool
  no_pipeline_instruction : Option Inst
  fetch_instruction : Option Inst
  fetch_instruction_bits : Nat
  decode_instruction : Option Inst
  execute_instruction : Option Inst
  access_mem_instruction : Option Inst
  write_back_instruction : Option Inst
deriving DecidableEq, Repr

deriving instance DecidableEq for Except

/-- ControlUnit::new over the given memories. -/
def controlUnitNew (dram : DRAM) (cache : DMCache) : ControlUnit :=
  { pipeline_enabled := true
    cache_enabled := true
    cycle_count := 0
    registers := registersNew
    dram := dram
    cache := cache
    first_instruction_loaded := false
    halt_encountered := false
    no_pipeline_instruction := none
    fetch_instruction := none
    fetch_instruction_bits := 0
    decode_instruction := none
    execute_instruction := none
    access_mem_instruction := none
    write_back_instruction := none }

/-- Write-back stage of step_pipeline: run write_back on the access-memory
slot (if occupied) and move the instruction into the write-back slot. -/
def wbStage (cu : ControlUnit) : Option (Except String ControlUnit) :=
  match cu.access_mem_instruction with
  | none => some (Except.ok { cu with write_back_instruction := none })
  | some i =>
    match instWriteBack i cu.registers with
    | (_, _, SimResult.Err e) =>
      some (Except.error ("Failed to write back for instruction: " ++ e))
    | (i1, rs1, SimResult.Wait w _) =>
      some (Except.ok { cu with
        registers := rs1
        cycle_count := u32add cu.cycle_count w
        write_back_instruction := some i1
        access_mem_instruction := none })

/-- Access-memory stage of step_pipeline: run access_memory on the execute
slot (if occupied) against the selected memory and move it forward. -/
def amStage (cu : ControlUnit) : Option (Except String ControlUnit) :=
  match cu.execute_instruction with
  | none => some (Except.ok { cu with access_mem_instruction := none })
  | some i =>
    match instAccessMemory i cu.cache_enabled cu.cache cu.dram with
    | none => none
    | some (_, _, _, SimResult.Err e) =>
      some (Except.error ("Failed to access memory for instruction: " ++ e))
    | some (i1, c1, d1, SimResult.Wait w _) =>
      some (Except.ok { cu with
        cache := c1
        dram := d1
        cycle_count := u32add cu.cycle_count w
        access_mem_instruction := some i1
        execute_instruction := none })

/-- Execute stage of step_pipeline: run execute on the decode slot (if
occupied) and move it forward. -/
def exStage (cu : ControlUnit) : Option (Except String ControlUnit) :=
  match cu.decode_instruction with
  | none => some (Except.ok { cu with execute_instruction := none })
  | some i =>
    match instExecute i with
    | none => none
    | some (_, SimResult.Err e) =>
      some (Except.error ("Failed to execute instruction: " ++ e))
    | some (i1, SimResult.Wait w _) =>
      some (Except.ok { cu with
        cycle_count := u32add cu.cycle_count w
        execute_instruction := some i1
        decode_instruction := none })

/-- Decode stage of step_pipeline: run decode on the fetch slot (if
occupied) with the latched fetch bits and move it forward. -/
def deStage (cu : ControlUnit) : Option (Except String ControlUnit) :=
  match cu.fetch_instruction with
  | none => some (Except.ok { cu with decode_instruction := none })
  | some i =>
    match instDecode i cu.fetch_instruction_bits cu.registers with
    | (_, SimResult.Err e) =>
      some (Except.error ("Failed to decode instruction: " ++ e))
    | (i1, SimResult.Wait w _) =>
      some (Except.ok { cu with
        cycle_count := u32add cu.cycle_count w
        decode_instruction := some i1
        fetch_instruction := none })

/-- Fetch stage of step_pipeline: unless halted, read mem[regs[PC]], run the
instruction factory on the bits (which latches halt_encountered when the
bits decode to Halt), install the instruction and latch the bits.  When
halted the fetch slot is cleared. -/
def fetchStage (cu : ControlUnit) : Option (Except String ControlUnit) :=
  if cu.halt_encountered = true then
    some (Except.ok { cu with fetch_instruction := none })
  else
    match memSysGet cu.cache_enabled cu.cache cu.dram (regGet cu.registers PC) with
    | none => none
    | some (_, _, SimResult.Err e) =>
      some (Except.error ("Failed to retrieve instruction from address " ++
        toString (regGet cu.registers PC) ++ ": " ++ e))
    | some (c1, d1, SimResult.Wait w ibits) =>
      match instructionFactory ibits with
      | Except.error e =>
        some (Except.error ("Failed to determine type of instruction for bits " ++
          toString ibits ++ ": " ++ e))
      | Except.ok inst =>
        some (Except.ok { cu with
          cache := c1
          dram := d1
          halt_encountered :=
            (if inst = Inst.halt then true else cu.halt_encountered)
          fetch_instruction := some inst
          fetch_instruction_bits := ibits
          cycle_count := u32add cu.cycle_count w })

/-- ControlUnit::program_is_running. -/
def programIsRunning (cu : ControlUnit) : Bool :=
  if cu.pipeline_enabled then
    !cu.first_instruction_loaded ||
      cu.decode_instruction.isSome ||
      cu.fetch_instruction.isSome ||
      cu.execute_instruction.isSome ||
      cu.access_mem_instruction.isSome
  else
    !cu.first_instruction_loaded || cu.no_pipeline_instruction.isSome

/-- ControlUnit::step_pipeline: the five stages processed in reverse order,
then PC += 1 and cycle_count += 1, returning program_is_running. -/
def stepPipeline (cu : ControlUnit) : Option (Except String (ControlUnit × Bool)) :=
  match wbStage cu with
  | none => none
  | some (Except.error e) => some (Except.error e)
  | some (Except.ok c1) =>
    match amStage c1 with
    | none => none
    | some (Except.error e) => some (Except.error e)
    | some (Except.ok c2) =>
      match exStage c2 with
      | none => none
      | some (Except.error e) => some (Except.error e)
      | some (Except.ok c3) =>
        match deStage c3 with
        | none => none
        | some (Except.error e) => some (Except.error e)
        | some (Except.ok c4) =>
          match fetchStage c4 with
          | none => none
          | some (Except.error e) => some (Except.error e)
          | some (Except.ok c5) =>
            let c6 := { c5 with
              registers := regSet c5.registers PC (u32add (regGet c5.registers PC) 1)
              cycle_count := u32add c5.cycle_count 1 }
            some (Except.ok (c6, programIsRunning c6))

/-- ControlUnit::step_no_pipeline: when halted return Ok(false) untouched;
otherwise fetch from mem[regs[PC]], build the instruction from the fetched
bits (latching halt), then run decode, execute, access-memory and write-back
serially.  Note, faithfully to the source, that decode receives
self.fetch_instruction_bits, which this path never assigns (the freshly
fetched bits only reach the factory), and which therefore holds its initial
or pipeline-written value, not the bits just fetched. -/
def stepNoPipeline (cu : ControlUnit) : Option (Except String (ControlUnit × Bool)) :=
  if cu.halt_encountered = true then some (Except.ok (cu, false))
  else
    match memSysGet cu.cache_enabled cu.cache cu.dram (regGet cu.registers PC) with
    | none => none
    | some (_, _, SimResult.Err e) =>
      some (Except.error ("Failed to retrieve instruction from address " ++
        toString (regGet cu.registers PC) ++ ": " ++ e))
    | some (c1, d1, SimResult.Wait wf fetched_bits) =>
      match instructionFactory fetched_bits with
      | Except.error e =>
        some (Except.error ("Failed to determine type of instruction for bits " ++
          toString fetched_bits ++ ": " ++ e))
      | Except.ok inst0 =>
        let cu1 := { cu with
          cache := c1
          dram := d1
          halt_encountered :=
            (if inst0 = Inst.halt then true else cu.halt_encountered)
          cycle_count := u32add cu.cycle_count wf }
        match instDecode inst0 cu1.fetch_instruction_bits cu1.registers with
        | (_, SimResult.Err e) =>
          some (Except.error ("Failed to decode instruction: " ++ e))
        | (inst1, SimResult.Wait wd _) =>
          let cu2 := { cu1 with cycle_count := u32add cu1.cycle_count wd }
          match instExecute inst1 with
          | none => none
          | some (_, SimResult.Err e) =>
            some (Except.error ("Failed to execute instruction: " ++ e))
          | some (inst2, SimResult.Wait we _) =>
            let cu3 := { cu2 with cycle_count := u32add cu2.cycle_count we }
            match instAccessMemory inst2 cu3.cache_enabled cu3.cache cu3.dram with
            | none => none
            | some (_, _, _, SimResult.Err e) =>
              some (Except.error ("Failed to access memory for instruction: " ++ e))
            | some (inst3, c2, d2, SimResult.Wait wm _) =>
              let cu4 := { cu3 with
                cache := c2
                dram := d2
                cycle_count := u32add cu3.cycle_count wm }
              match instWriteBack inst3 cu4.registers with
              | (_, _, SimResult.Err e) =>
                some (Except.error ("Failed to write back for instruction: " ++ e))
              | (inst4, rs1, SimResult.Wait ww _) =>
                let cu5 := { cu4 with
                  registers := regSet rs1 PC (u32add (regGet rs1 PC) 1)
                  cycle_count := u32add (u32add cu4.cycle_count ww) 5
                  no_pipeline_instruction := some inst4 }
                some (Except.ok (cu5, programIsRunning cu5))

/-- ControlUnit::step: mark the first instruction loaded, select the memory
(via the cache_enabled flag threaded into the stages) and dispatch on
pipeline_enabled. -/
def cuStep (cu : ControlUnit) : Option (Except String (ControlUnit × Bool)) :=
  if cu.pipeline_enabled then
    stepPipeline { cu with first_instruction_loaded := true }
  else
    stepNoPipeline { cu with first_instruction_loaded := true }

/-- The state after a successful step (the input state if the step failed);
convenience for stating concrete executions. -/
def cuAfter (cu : ControlUnit) : ControlUnit :=
  match cuStep cu with
  | some (Except.ok (c, _)) => c
  | _ => cu

/-- Encoding of ADD Unsigned Immediate, dest = R2, op1 = R10, imm = 2:
type ALU (1) in bits [5..=6], opcode AddUII (1) in bits [7..=12], dest 2 in
bits [13..=17], op1 register 10 in bits [18..=22], immediate 2 in
bits [23..=31]. -/
def c1bits : Nat := 32 + 128 + 2 * 8192 + 10 * 262144 + 2 * 8388608

/-- Non-pipelined control unit whose DRAM holds the ADD encoding at address
0 and whose register R10 holds 1 (spec scenario 1). -/
def c1cu0 : ControlUnit :=
  { controlUnitNew { delay := 100, data := [(0, c1bits)] } (dmNew 1 4) with
      pipeline_enabled := false
      cache_enabled := false
      registers := regSet registersNew 10 1 }

/-- Fresh 2-line cache with delay 1 for the eviction scenario. -/
def c2cache0 : DMCache := dmNew 1 2

/-- Fresh DRAM with delay 10 for the eviction scenario. -/
def c2dram0 : DRAM := dramNew 10

/-- Cache and DRAM after set(2, 99) on the fresh pair: line 0 becomes valid,
dirty, tag 1, data 99 and the DRAM is untouched. -/
def c2afterSet : DMCache × DRAM :=
  match dmSet c2cache0 c2dram0 2 99 with
  | some (c, d, _) => (c, d)
  | none => (c2cache0, c2dram0)

/-- Cache and DRAM after the subsequent get(0), which misses on the dirty
line and evicts. -/
def c2afterGet : DMCache × DRAM :=
  match dmGet c2afterSet.1 c2afterSet.2 0 with
  | some (c, d, _) => (c, d)
  | none => c2afterSet

/-- 4-line cache (idx_bits = 2, tag_bits = 30) for the reconstruction claim. -/
def c3cache : DMCache := dmNew 1 4

/-- Register file with PC = 10 for the jump write-back claim. -/
def c4regs : Registers := regSet registersNew PC 10

/-- Register file with PC = 10 and STS = 4 (LT) for the taken conditional
jump. -/
def c4regsSTS : Registers := regSet (regSet registersNew PC 10) STS 4

/-- Register file with STS = 2 and INTLR = 42 for the RFI claim. -/
def c5regs : Registers := regSet (regSet registersNew STS 2) INTLR 42

/-- Register file with STS = 7 (the sentinel discriminant) for the RFI
claim. -/
def c5regs7 : Registers := regSet registersNew STS 7

/-- Pipelined control unit immediately after the step that fetched a Halt:
halt_encountered is latched and the fetch slot holds the Halt object. -/
def c6cu0 : ControlUnit :=
  { controlUnitNew (dramNew 0) (dmNew 1 2) with
      cache_enabled := false
      halt_encountered := true
      first_instruction_loaded := true
      fetch_instruction := some Inst.halt }

/-- Drain states one, two, three and four steps after the Halt fetch. -/
def c6cu1 : ControlUnit := cuAfter c6cu0

/-- Second drain state. -/
def c6cu2 : ControlUnit := cuAfter c6cu1

/-- Third drain state. -/
def c6cu3 : ControlUnit := cuAfter c6cu2

/-- Fourth drain state. -/
def c6cu4 : ControlUnit := cuAfter c6cu3

/-- A 2-line cache whose line 0 is valid and clean with tag 3 and data 55:
address 6 (index 0, tag 3) hits it. -/
def c7cache : DMCache :=
  { delay := 2
    num_lines := 2
    idx_bits := 1
    tag_bits := 31
    lines := [{ tag := 3, data := 55, valid := true, dirty := false },
      dmCacheLineNew] }

/-- Backing DRAM for the hit scenario. -/
def c7base : DRAM := dramNew 9

/-- Cache and DRAM after set(6, 88) on the hit cache (a tag-match write). -/
def c7afterSet : DMCache × DRAM :=
  match dmSet c7cache c7base 6 88 with
  | some (c, d, _) => (c, d)
  | none => (c7cache, c7base)

/-- An 8-byte stream (two words) for the loader claim. -/
def c9bs : List Nat := [0, 0, 0, 7, 1, 2, 3, 4]

/-- The DRAM produced by loading that stream into an empty delay-0 DRAM. -/
def c9d2 : DRAM :=
  match dramLoadFromReader (dramNew 0) c9bs with
  | Except.ok d => d
  | Except.error _ => dramNew 0

/-- Looking up the key just inserted yields the inserted value. -/
theorem mapGet_insert_self (m : List (Nat × Nat)) (k v : Nat) :
    mapGet (mapInsert m k v) k = some v := by
  simp [mapGet, mapInsert, List.find?]

/-- Filtering out the bindings of one key does not change the search for a
different key. -/
theorem find_filter_other (t : List (Nat × Nat)) (k k2 : Nat) (h : k2 ≠ k) :
    List.find? (fun p => p.1 == k2) (t.filter (fun p => p.1 != k)) =
      List.find? (fun p => p.1 == k2) t := by
  have hkk2 : (k == k2) = false := by
    simp only [beq_eq_false_iff_ne]
    exact fun hc => h hc.symm
  induction t with
  | nil => rfl
  | cons a t ih =>
    by_cases ha : a.1 = k
    · simp [List.filter_cons, List.find?_cons, ha, hkk2, ih]
    · by_cases hk2 : a.1 = k2
      · simp [List.filter_cons, List.find?_cons, ha, hk2, h]
      · simp [List.filter_cons, List.find?_cons, ha, hk2, ih]

/-- Looking up a different key is unaffected by an insert. -/
theorem mapGet_insert_ne (m : List (Nat × Nat)) (k v k2 : Nat) (h : k2 ≠ k) :
    mapGet (mapInsert m k v) k2 = mapGet m k2 := by
  have hb : (k == k2) = false := by
    simp only [beq_eq_false_iff_ne]
    exact fun hc => h hc.symm
  simp only [mapGet, mapInsert, List.find?, hb]
  rw [find_filter_other m k k2 h]

/-- getD after set at a different index is unchanged. -/
theorem getD_set_ne {α : Type} (l : List α) (i j : Nat) (x d : α) (h : j ≠ i) :
    (l.set i x).getD j d = l.getD j d := by
  induction l generalizing i j with
  | nil => simp
  | cons a t ih =>
    cases i with
    | zero =>
      cases j with
      | zero => exact absurd rfl h
      | succ j => simp [List.set]
    | succ i =>
      cases j with
      | zero => simp [List.set]
      | succ j =>
        simp only [List.set, List.getD_cons_succ]
        exact ih i j (fun hc => h (by rw [hc]))

/-- get? after set at the same in-range index yields the new value. -/
theorem get?_set_self {α : Type} (l : List α) (i : Nat) (x : α)
    (h : i < l.length) : (l.set i x).get? i = some x := by
  induction l generalizing i with
  | nil => simp at h
  | cons a t ih =>
    cases i with
    | zero => rfl
    | succ i =>
      simp only [List.set, List.get?]
      exact ih i (by simpa using h)

/-- A successful get? witnesses the index bound. -/
theorem get?_lt {α : Type} {l : List α} {i : Nat} {x : α}
    (h : l.get? i = some x) : i < l.length := by
  induction l generalizing i with
  | nil => simp [List.get?] at h
  | cons a t ih =>
    cases i with
    | zero => simp
    | succ i =>
      simp only [List.get?] at h
      simpa using ih h

/-- C8: DRAM round trip and self-materializing reads.  After set(a, v) a
get(a) returns Wait(delay, v) without further state change; a get of an
absent address materializes 0 there and returns Wait(delay, 0), and the
immediately repeated get returns the identical value from the unchanged
state. -/
theorem dram_roundtrip_selfmaterializing (d : DRAM) (a v : Nat) :
    dramGet (dramSet d a v).1 a = ((dramSet d a v).1, SimResult.Wait d.delay v) ∧
    (mapGet d.data a = none →
      dramGet d a = ({ d with data := mapInsert d.data a 0 }, SimResult.Wait d.delay 0) ∧
      dramGet { d with data := mapInsert d.data a 0 } a =
        ({ d with data := mapInsert d.data a 0 }, SimResult.Wait d.delay 0)) := by
  constructor
  · simp [dramGet, dramSet, mapGet_insert_self]
  · intro h
    constructor
    · simp [dramGet, h]
    · simp [dramGet, mapGet_insert_self]

/-- Witness for C8 at the empty delay-3 DRAM, address 5, value 77. -/
theorem dram_roundtrip_selfmaterializing_witness :
    dramGet (dramSet (dramNew 3) 5 77).1 5 =
      ((dramSet (dramNew 3) 5 77).1, SimResult.Wait (dramNew 3).delay 77) ∧
    (dramGet (dramNew 3) 5 =
      ({ dramNew 3 with data := mapInsert (dramNew 3).data 5 0 },
        SimResult.Wait (dramNew 3).delay 0) ∧
    dramGet { dramNew 3 with data := mapInsert (dramNew 3).data 5 0 } 5 =
      ({ dramNew 3 with data := mapInsert (dramNew 3).data 5 0 },
        SimResult.Wait (dramNew 3).delay 0)) :=
  ⟨(dram_roundtrip_selfmaterializing (dramNew 3) 5 77).1,
    (dram_roundtrip_selfmaterializing (dramNew 3) 5 77).2 rfl⟩

/-- C3: address reconstruction is not the inverse of decomposition.  For the
4-line cache the index of address 4 is 0 (the 2 least significant bits) and
the tag is 1 (the remaining bits), but get_idx_address(0, 1) rebuilds
2^30 = 1073741824, not 4, because the source swaps idx_bits and tag_bits as
the field boundary. -/
theorem c3_reconstruction_not_inverse :
    getAddressIndex c3cache 4 = some 0 ∧
    getAddressTag c3cache 4 = 1 ∧
    getIdxAddress c3cache 0 1 = some 1073741824 ∧
    (1073741824 : Nat) ≠ 4 := by
  refine ⟨by decide, by decide, by decide, by decide⟩

/-- C4: Jump write-back at the failing inputs.  An unconditional (condition
0) subroutine jump to 5 with regs[PC] = 10 commits PC but never writes LR
(LR stays 0, not the return address 11); a taken conditional (condition 4 =
STS) subroutine jump to 7 writes LR = 29, the constant register index PC
(28) plus one, again not 11. -/
theorem c4_jump_link_register :
    instWriteBack (Inst.jump AddrMode.Immediate true 0 5) c4regs =
      (Inst.jump AddrMode.Immediate true 0 5, regSet c4regs PC 5,
        SimResult.Wait 0 ()) ∧
    regGet (regSet c4regs PC 5) LR = 0 ∧
    instWriteBack (Inst.jump AddrMode.RegisterDirect true 4 7) c4regsSTS =
      (Inst.jump AddrMode.RegisterDirect true 4 7,
        regSet (regSet c4regsSTS LR 29) PC 7, SimResult.Wait 0 ()) ∧
    regGet (regSet (regSet c4regsSTS LR 29) PC 7) LR = 29 ∧
    (0 : Nat) ≠ 11 ∧ (29 : Nat) ≠ 11 := by
  refine ⟨by decide, by decide, by decide, by decide, by decide, by decide⟩

/-- C5 counterexample: with STS = 2 (different from the sentinel) and
INTLR = 42, RFI write-back leaves STS = 8, not 0 as the claim states. -/
theorem c5_rfi_counterexample :
    regGet (instWriteBack Inst.rfi c5regs).2.1 STS = 8 ∧
    ¬ regGet (instWriteBack Inst.rfi c5regs).2.1 STS = 0 := by
  refine ⟨by decide, by decide⟩

/-- C5 amended: RFI write-back compares STS against the NOT_SET_INITIAL
discriminant 7; when they differ it sets STS to the NOT_SET discriminant 8
(not 0) and PC to regs[INTLR]; otherwise it changes nothing. -/
theorem c5_rfi_write_back (rs : Registers) :
    (regGet rs STS ≠ 7 →
      instWriteBack Inst.rfi rs =
        (Inst.rfi, regSet (regSet rs STS 8) PC (regGet rs INTLR),
          SimResult.Wait 0 ())) ∧
    (regGet rs STS = 7 →
      instWriteBack Inst.rfi rs = (Inst.rfi, rs, SimResult.Wait 0 ())) := by
  constructor
  · intro h
    have hne : (INTLR : Nat) ≠ STS := by decide
    simp only [instWriteBack]
    rw [if_pos h]
    simp only [regGet, regSet]
    rw [getD_set_ne rs STS INTLR 8 0 hne]
  · intro h
    simp only [instWriteBack]
    rw [if_neg (by simp [h])]

/-- Witness for C5 amended at STS = 2 / INTLR = 42 and at STS = 7. -/
theorem c5_rfi_write_back_witness :
    instWriteBack Inst.rfi c5regs =
      (Inst.rfi, regSet (regSet c5regs STS 8) PC (regGet c5regs INTLR),
        SimResult.Wait 0 ()) ∧
    instWriteBack Inst.rfi c5regs7 = (Inst.rfi, c5regs7, SimResult.Wait 0 ()) :=
  ⟨(c5_rfi_write_back c5regs).1 (by decide),
    (c5_rfi_write_back c5regs7).2 (by decide)⟩

/-- C10 counterexample: overflowing Add does have a defined result value.
Unsigned u32::MAX + 1 executes to the wrapped result 0 and signed
i32::MAX + 1 executes to the wrapped result -2^31, both returned through
Wait(0, ()) — not a fault and not an error — so overflowing operations do
not belong with division among the faulting cases. -/
theorem c10_overflowing_add_defined :
    instExecute (Inst.arithUnsign AddrMode.RegisterDirect 2 ArithMode.Add
        4294967295 1 0) =
      some (Inst.arithUnsign AddrMode.RegisterDirect 2 ArithMode.Add
        4294967295 1 0, SimResult.Wait 0 ()) ∧
    instExecute (Inst.arithSign AddrMode.RegisterDirect 2 ArithMode.Add
        2147483647 1 0) =
      some (Inst.arithSign AddrMode.RegisterDirect 2 ArithMode.Add
        2147483647 1 (-2147483648), SimResult.Wait 0 ()) := by
  refine ⟨by decide, by decide⟩

/-- C10 amended: the arithmetic execute stages never produce SimResult.Err;
division by zero (unsigned and signed) and the overflowing signed division
i32::MIN / -1 have no result at all (the unguarded native division panics)
rather than an error through the carrier, while Add, Sub and Mul always
return a defined wrapped result. -/
theorem arith_execute_no_err :
    (∀ (m : AddrMode) (dest : Nat) (op : ArithMode) (op1 op2 r : Nat),
      match instExecute (Inst.arithUnsign m dest op op1 op2 r) with
      | some (_, SimResult.Err _) => False
      | _ => True) ∧
    (∀ (m : AddrMode) (dest : Nat) (op : ArithMode) (op1 op2 r : Int),
      match instExecute (Inst.arithSign m dest op op1 op2 r) with
      | some (_, SimResult.Err _) => False
      | _ => True) ∧
    (∀ (m : AddrMode) (dest : Nat) (op1 r : Nat),
      instExecute (Inst.arithUnsign m dest ArithMode.Div op1 0 r) = none) ∧
    (∀ (m : AddrMode) (dest : Nat) (op1 r : Int),
      instExecute (Inst.arithSign m dest ArithMode.Div op1 0 r) = none) ∧
    (∀ (m : AddrMode) (dest : Nat) (r : Int),
      instExecute (Inst.arithSign m dest ArithMode.Div (-(2 ^ 31 : Int)) (-1) r) =
        none) ∧
    (∀ (m : AddrMode) (dest : Nat) (op1 op2 r : Nat),
      instExecute (Inst.arithUnsign m dest ArithMode.Add op1 op2 r) =
        some (Inst.arithUnsign m dest ArithMode.Add op1 op2 (u32add op1 op2),
          SimResult.Wait 0 ())) ∧
    (∀ (m : AddrMode) (dest : Nat) (op1 op2 r : Nat),
      instExecute (Inst.arithUnsign m dest ArithMode.Sub op1 op2 r) =
        some (Inst.arithUnsign m dest ArithMode.Sub op1 op2 (u32sub op1 op2),
          SimResult.Wait 0 ())) ∧
    (∀ (m : AddrMode) (dest : Nat) (op1 op2 r : Nat),
      instExecute (Inst.arithUnsign m dest ArithMode.Mul op1 op2 r) =
        some (Inst.arithUnsign m dest ArithMode.Mul op1 op2 (u32mul op1 op2),
          SimResult.Wait 0 ())) ∧
    (∀ (m : AddrMode) (dest : Nat) (op1 op2 r : Int),
      instExecute (Inst.arithSign m dest ArithMode.Add op1 op2 r) =
        some (Inst.arithSign m dest ArithMode.Add op1 op2 (wrapI32 (op1 + op2)),
          SimResult.Wait 0 ())) ∧
    (∀ (m : AddrMode) (dest : Nat) (op1 op2 r : Int),
      instExecute (Inst.arithSign m dest ArithMode.Sub op1 op2 r) =
        some (Inst.arithSign m dest ArithMode.Sub op1 op2 (wrapI32 (op1 - op2)),
          SimResult.Wait 0 ())) ∧
    (∀ (m : AddrMode) (dest : Nat) (op1 op2 r : Int),
      instExecute (Inst.arithSign m dest ArithMode.Mul op1 op2 r) =
        some (Inst.arithSign m dest ArithMode.Mul op1 op2 (wrapI32 (op1 * op2)),
          SimResult.Wait 0 ())) := by
  refine ⟨?_, ?_, ?_, ?_, ?_, ?_, ?_, ?_, ?_, ?_, ?_⟩
  · intro m dest op op1 op2 r
    cases op with
    | Div =>
      by_cases h2 : op2 = 0 <;> simp [instExecute, h2]
    | Add => simp [instExecute]
    | Sub => simp [instExecute]
    | Mul => simp [instExecute]
  · intro m dest op op1 op2 r
    cases op with
    | Div =>
      by_cases h2 : op2 = 0 ∨ (op1 = -(2 ^ 31 : Int) ∧ op2 = -1) <;>
        simp [instExecute, h2]
    | Add => simp [instExecute]
    | Sub => simp [instExecute]
    | Mul => simp [instExecute]
  · intro m dest op1 r
    simp [instExecute]
  · intro m dest op1 r
    simp [instExecute]
  · intro m dest r
    simp [instExecute]
  · intro m dest op1 op2 r
    simp [instExecute]
  · intro m dest op1 op2 r
    simp [instExecute]
  · intro m dest op1 op2 r
    simp [instExecute]
  · intro m dest op1 op2 r
    simp [instExecute]
  · intro m dest op1 op2 r
    simp [instExecute]
  · intro m dest op1 op2 r
    simp [instExecute]

/-- C2: a read miss on a valid dirty conflicting line evicts to the
requested address, not to the reconstructed old address.  After set(2, 99)
installs the dirty line (index 0, tag 1) in the fresh 2-line cache, get(0)
writes the evicted 99 to DRAM address 0 (the requested address) — DRAM
address 2, the reconstructed address of the dirty line, is never written, so
the displaced value is lost and the get even returns 99, the clobbered
content of address 0, instead of 0. -/
theorem c2_read_miss_evicts_to_requested_address :
    dmSet c2cache0 c2dram0 2 99 =
      some (c2afterSet.1, c2afterSet.2, SimResult.Wait 1 ()) ∧
    c2afterSet.1.lines.get? 0 =
      some { tag := 1, data := 99, valid := true, dirty := true } ∧
    dmGet c2afterSet.1 c2afterSet.2 0 =
      some (c2afterGet.1, c2afterGet.2, SimResult.Wait 21 99) ∧
    mapGet c2afterGet.2.data 0 = some 99 ∧
    mapGet c2afterGet.2.data 2 = none := by
  refine ⟨by decide, by decide, by decide, by decide, by decide⟩

/-- C1: one non-pipelined step on the ADD scenario.  The factory builds the
ADD-unsigned-immediate object from the freshly fetched bits, but decode runs
on the stale fetch_instruction_bits field (still 0), so every operand field
decodes to 0: the step succeeds, the program keeps running, PC becomes 1,
but R2 stays 0 (the claim expects 3) and the retired instruction object
shows dest = 0, op1 = 0, op2 = 0. -/
theorem c1_no_pipeline_add_scenario :
    cuStep c1cu0 = some (Except.ok (cuAfter c1cu0, true)) ∧
    regGet (cuAfter c1cu0).registers 2 = 0 ∧
    regGet (cuAfter c1cu0).registers PC = 1 ∧
    (cuAfter c1cu0).no_pipeline_instruction =
      some (Inst.arithUnsign AddrMode.Immediate 0 ArithMode.Add 0 0 0) ∧
    (0 : Nat) ≠ 3 := by
  refine ⟨by decide, by decide, by decide, by decide, by decide⟩

/-- A valid line whose tag matches the address makes get a pure hit: the
line data with exactly the cache delay and no state change. -/
theorem dmGet_hit (c : DMCache) (base : DRAM) (a idx : Nat) (line : DMCacheLine)
    (h1 : getAddressIndex c a = some idx)
    (h2 : c.lines.get? idx = some line)
    (h3 : line.valid = true)
    (h4 : line.tag = getAddressTag c a) :
    dmGet c base a = some (c, base, SimResult.Wait c.delay line.data) := by
  simp only [dmGet, h1, h2]
  rw [if_pos ⟨h3, h4⟩]

/-- After overwriting line idx with a valid line carrying the tag of a, a
get of a hits and returns that line value. -/
theorem dmGet_hit_on_set (c : DMCache) (base : DRAM) (a idx : Nat)
    (nl : DMCacheLine)
    (hidx : getAddressIndex c a = some idx)
    (hlen : idx < c.lines.length)
    (hv : nl.valid = true)
    (ht : nl.tag = getAddressTag c a) :
    dmGet { c with lines := c.lines.set idx nl } base a =
      some ({ c with lines := c.lines.set idx nl }, base,
        SimResult.Wait c.delay nl.data) := by
  have h1 : getAddressIndex { c with lines := c.lines.set idx nl } a = some idx :=
    hidx
  have h2 : ({ c with lines := c.lines.set idx nl }).lines.get? idx = some nl :=
    get?_set_self c.lines idx nl hlen
  exact dmGet_hit { c with lines := c.lines.set idx nl } base a idx nl h1 h2 hv ht

/-- C7: cache hit behaviour and set/get round trip.  A valid tag-matching
line answers get with Wait(delay, line.data) and no state change; and
whenever set(a, v) completes, the immediately following get(a) on the
resulting state returns v with the cache delay and again no state change. -/
theorem cache_hit_and_roundtrip :
    (∀ (c : DMCache) (base : DRAM) (a idx : Nat) (line : DMCacheLine),
      getAddressIndex c a = some idx →
      c.lines.get? idx = some line →
      line.valid = true →
      line.tag = getAddressTag c a →
      dmGet c base a = some (c, base, SimResult.Wait c.delay line.data)) ∧
    (∀ (c c1 : DMCache) (base base1 : DRAM) (a v w : Nat),
      dmSet c base a v = some (c1, base1, SimResult.Wait w ()) →
      dmGet c1 base1 a = some (c1, base1, SimResult.Wait c1.delay v)) := by
  constructor
  · exact fun c base a idx line h1 h2 h3 h4 => dmGet_hit c base a idx line h1 h2 h3 h4
  · intro c c1 base base1 a v w h
    simp only [dmSet] at h
    split at h
    · simp at h
    · rename_i idx hidx
      split at h
      · simp at h
      · rename_i line hline
        have hlen : idx < c.lines.length := get?_lt hline
        split at h
        · rename_i hcond
          simp only [Option.some.injEq, Prod.mk.injEq] at h
          obtain ⟨hc1, hbase1, _⟩ := h
          subst hc1
          subst hbase1
          exact dmGet_hit_on_set c base a idx { line with dirty := true, data := v }
            hidx hlen hcond.1 hcond.2
        · rename_i hcond
          split at h
          · rename_i hev
            split at h
            · simp at h
            · rename_i old_addr hold
              simp only [dramSet, Option.some.injEq, Prod.mk.injEq] at h
              obtain ⟨hc1, hbase1, _⟩ := h
              subst hc1
              subst hbase1
              exact dmGet_hit_on_set c _ a idx
                { valid := true, dirty := true, tag := getAddressTag c a, data := v }
                hidx hlen rfl rfl
          · rename_i hev
            simp only [Option.some.injEq, Prod.mk.injEq] at h
            obtain ⟨hc1, hbase1, _⟩ := h
            subst hc1
            subst hbase1
            exact dmGet_hit_on_set c base a idx
              { valid := true, dirty := true, tag := getAddressTag c a, data := v }
              hidx hlen rfl rfl

/-- Witness for C7: a hit on the prepared cache at address 6 (index 0,
tag 3), and the round trip set(6, 88) then get(6). -/
theorem cache_hit_and_roundtrip_witness :
    dmGet c7cache c7base 6 =
      some (c7cache, c7base, SimResult.Wait c7cache.delay 55) ∧
    dmGet c7afterSet.1 c7afterSet.2 6 =
      some (c7afterSet.1, c7afterSet.2, SimResult.Wait c7afterSet.1.delay 88) :=
  ⟨cache_hit_and_roundtrip.1 c7cache c7base 6 0
      { tag := 3, data := 55, valid := true, dirty := false }
      (by decide) (by decide) (by decide) (by decide),
    cache_hit_and_roundtrip.2 c7cache c7afterSet.1 c7base c7afterSet.2 6 88 2
      (by decide)⟩

/-- Word j + 1 of a stream is word j of the stream minus its first 4-byte
group. -/
theorem chunkWord_cons4 (b0 b1 b2 b3 : Nat) (rest : List Nat) (j : Nat) :
    chunkWord (b0 :: b1 :: b2 :: b3 :: rest) (j + 1) = chunkWord rest j := by
  have h0 : 4 * (j + 1) = 4 * j + 1 + 1 + 1 + 1 := by omega
  have h1 : 4 * (j + 1) + 1 = 4 * j + 1 + 1 + 1 + 1 + 1 := by omega
  have h2 : 4 * (j + 1) + 2 = 4 * j + 2 + 1 + 1 + 1 + 1 := by omega
  have h3 : 4 * (j + 1) + 3 = 4 * j + 3 + 1 + 1 + 1 + 1 := by omega
  simp only [chunkWord, h0, h1, h2, h3, List.getD_cons_succ]

/-- The loader loop succeeds exactly when the remaining stream length is a
multiple of 4 (fuel-indexed induction). -/
theorem dramLoadGo_ok_iff :
    ∀ (n : Nat) (bs : List Nat), bs.length ≤ n → ∀ (d : DRAM) (addr : Nat),
      (∃ d2, dramLoadGo d addr bs = Except.ok d2) ↔ bs.length % 4 = 0 := by
  intro n
  induction n with
  | zero =>
    intro bs hlen d addr
    have hbs : bs = [] := List.eq_nil_of_length_eq_zero (Nat.le_zero.mp hlen)
    subst hbs
    simp [dramLoadGo]
  | succ n ih =>
    intro bs hlen d addr
    rcases bs with _ | ⟨b0, _ | ⟨b1, _ | ⟨b2, _ | ⟨b3, rest⟩⟩⟩⟩
    · simp [dramLoadGo]
    · simp [dramLoadGo]
    · simp [dramLoadGo]
    · simp [dramLoadGo]
    · have hr : rest.length ≤ n := by
        simp only [List.length_cons] at hlen
        omega
      rw [show dramLoadGo d addr (b0 :: b1 :: b2 :: b3 :: rest) =
        dramLoadGo { d with data := mapInsert d.data addr (beWord b0 b1 b2 b3) }
          (u32add addr 1) rest from rfl]
      rw [ih rest hr { d with data := mapInsert d.data addr (beWord b0 b1 b2 b3) }
        (u32add addr 1)]
      simp only [List.length_cons]
      omega

/-- A successful loader run stores word k of the stream at address addr + k
and leaves every address below addr untouched, provided the address counter
never wraps. -/
theorem dramLoadGo_stores :
    ∀ (n : Nat) (bs : List Nat), bs.length ≤ n →
      ∀ (d : DRAM) (addr : Nat) (d2 : DRAM),
      addr + bs.length / 4 < U32M →
      dramLoadGo d addr bs = Except.ok d2 →
      (∀ x, x < addr → mapGet d2.data x = mapGet d.data x) ∧
      (∀ k, k < bs.length / 4 →
        mapGet d2.data (addr + k) = some (chunkWord bs k)) := by
  intro n
  induction n with
  | zero =>
    intro bs hlen d addr d2 hb h
    have hbs : bs = [] := List.eq_nil_of_length_eq_zero (Nat.le_zero.mp hlen)
    subst hbs
    simp only [dramLoadGo, Except.ok.injEq] at h
    subst h
    exact ⟨fun x _ => rfl, fun k hk => absurd hk (by simp)⟩
  | succ n ih =>
    intro bs hlen d addr d2 hb h
    rcases bs with _ | ⟨b0, _ | ⟨b1, _ | ⟨b2, _ | ⟨b3, rest⟩⟩⟩⟩
    · simp only [dramLoadGo, Except.ok.injEq] at h
      subst h
      exact ⟨fun x _ => rfl, fun k hk => absurd hk (by simp)⟩
    · simp [dramLoadGo] at h
    · simp [dramLoadGo] at h
    · simp [dramLoadGo] at h
    · have hr : rest.length ≤ n := by
        simp only [List.length_cons] at hlen
        omega
      have hq : (b0 :: b1 :: b2 :: b3 :: rest).length / 4 = rest.length / 4 + 1 := by
        simp only [List.length_cons]
        omega
      rw [hq] at hb
      have ha1 : u32add addr 1 = addr + 1 := by
        have : addr + 1 < U32M := by omega
        simpa [u32add] using Nat.mod_eq_of_lt this
      have hrec : dramLoadGo
          { d with data := mapInsert d.data addr (beWord b0 b1 b2 b3) }
          (addr + 1) rest = Except.ok d2 := by
        rw [← ha1]
        exact h
      have hb1 : (addr + 1) + rest.length / 4 < U32M := by omega
      have IH := ih rest hr
        { d with data := mapInsert d.data addr (beWord b0 b1 b2 b3) }
        (addr + 1) d2 hb1 hrec
      constructor
      · intro x hx
        rw [IH.1 x (by omega)]
        exact mapGet_insert_ne d.data addr (beWord b0 b1 b2 b3) x (by omega)
      · intro k hk
        rw [hq] at hk
        cases k with
        | zero =>
          rw [Nat.add_zero]
          rw [IH.1 addr (by omega)]
          have : chunkWord (b0 :: b1 :: b2 :: b3 :: rest) 0 = beWord b0 b1 b2 b3 := by
            simp [chunkWord]
          rw [this]
          exact mapGet_insert_self d.data addr (beWord b0 b1 b2 b3)
        | succ j =>
          have harr : addr + (j + 1) = (addr + 1) + j := by omega
          rw [harr, IH.2 j (by omega), chunkWord_cons4]

/-- C9: load_from_reader consumes the byte stream in 4-byte big-endian
groups and stores word k at address k starting at 0; it succeeds exactly
when the stream ends at a 4-byte boundary (a non-empty short final group is
the error case). -/
theorem load_from_reader_contract (d : DRAM) (bs : List Nat) :
    ((∃ d2, dramLoadFromReader d bs = Except.ok d2) ↔ bs.length % 4 = 0) ∧
    (∀ d2, bs.length / 4 < U32M →
      dramLoadFromReader d bs = Except.ok d2 →
      ∀ k, k < bs.length / 4 → mapGet d2.data k = some (chunkWord bs k)) := by
  constructor
  · exact dramLoadGo_ok_iff bs.length bs le_rfl d 0
  · intro d2 hb h k hk
    have := (dramLoadGo_stores bs.length bs le_rfl d 0 d2 (by simpa using hb) h).2 k hk
    simpa using this

/-- Witness for C9: the 8-byte stream loads successfully and stores its two
big-endian words at addresses 0 and 1. -/
theorem load_from_reader_contract_witness :
    (∃ d2, dramLoadFromReader (dramNew 0) c9bs = Except.ok d2) ∧
    mapGet c9d2.data 0 = some (chunkWord c9bs 0) ∧
    mapGet c9d2.data 1 = some (chunkWord c9bs 1) :=
  ⟨(load_from_reader_contract (dramNew 0) c9bs).1.mpr (by decide),
    (load_from_reader_contract (dramNew 0) c9bs).2 c9d2 (by decide) (by decide)
      0 (by decide),
    (load_from_reader_contract (dramNew 0) c9bs).2 c9d2 (by decide) (by decide)
      1 (by decide)⟩

/-- A successful write-back stage empties the access-memory slot into the
write-back slot and leaves the other slots and the driver flags unchanged. -/
theorem wbStage_ok {cu c : ControlUnit} (h : wbStage cu = some (Except.ok c)) :
    c.fetch_instruction = cu.fetch_instruction ∧
    c.decode_instruction = cu.decode_instruction ∧
    c.execute_instruction = cu.execute_instruction ∧
    c.access_mem_instruction = none ∧
    c.write_back_instruction.isSome = cu.access_mem_instruction.isSome ∧
    c.halt_encountered = cu.halt_encountered ∧
    c.first_instruction_loaded = cu.first_instruction_loaded ∧
    c.pipeline_enabled = cu.pipeline_enabled := by
  unfold wbStage at h
  split at h
  · rename_i ham
    simp only [Option.some.injEq, Except.ok.injEq] at h
    subst h
    simp [ham]
  · rename_i i ham
    split at h
    · simp at h
    · rename_i hwb
      simp only [Option.some.injEq, Except.ok.injEq] at h
      subst h
      simp [ham]

/-- A successful access-memory stage moves the execute slot forward and
leaves the other slots and the driver flags unchanged. -/
theorem amStage_ok {cu c : ControlUnit} (h : amStage cu = some (Except.ok c)) :
    c.fetch_instruction = cu.fetch_instruction ∧
    c.decode_instruction = cu.decode_instruction ∧
    c.execute_instruction = none ∧
    c.access_mem_instruction.isSome = cu.execute_instruction.isSome ∧
    c.halt_encountered = cu.halt_encountered ∧
    c.first_instruction_loaded = cu.first_instruction_loaded ∧
    c.pipeline_enabled = cu.pipeline_enabled := by
  unfold amStage at h
  split at h
  · rename_i hex
    simp only [Option.some.injEq, Except.ok.injEq] at h
    subst h
    simp [hex]
  · rename_i i hex
    split at h
    · simp at h
    · simp at h
    · rename_i ham
      simp only [Option.some.injEq, Except.ok.injEq] at h
      subst h
      simp [hex]

/-- A successful execute stage moves the decode slot forward and leaves the
other slots and the driver flags unchanged. -/
theorem exStage_ok {cu c : ControlUnit} (h : exStage cu = some (Except.ok c)) :
    c.fetch_instruction = cu.fetch_instruction ∧
    c.decode_instruction = none ∧
    c.execute_instruction.isSome = cu.decode_instruction.isSome ∧
    c.access_mem_instruction = cu.access_mem_instruction ∧
    c.halt_encountered = cu.halt_encountered ∧
    c.first_instruction_loaded = cu.first_instruction_loaded ∧
    c.pipeline_enabled = cu.pipeline_enabled := by
  unfold exStage at h
  split at h
  · rename_i hde
    simp only [Option.some.injEq, Except.ok.injEq] at h
    subst h
    simp [hde]
  · rename_i i hde
    split at h
    · simp at h
    · simp at h
    · rename_i hx
      simp only [Option.some.injEq, Except.ok.injEq] at h
      subst h
      simp [hde]

/-- A successful decode stage moves the fetch slot forward (emptying it) and
leaves the execute and access-memory slots and the driver flags unchanged. -/
theorem deStage_ok {cu c : ControlUnit} (h : deStage cu = some (Except.ok c)) :
    c.fetch_instruction = none ∧
    c.decode_instruction.isSome = cu.fetch_instruction.isSome ∧
    c.execute_instruction = cu.execute_instruction ∧
    c.access_mem_instruction = cu.access_mem_instruction ∧
    c.halt_encountered = cu.halt_encountered ∧
    c.first_instruction_loaded = cu.first_instruction_loaded ∧
    c.pipeline_enabled = cu.pipeline_enabled := by
  unfold deStage at h
  split at h
  · rename_i hf
    simp only [Option.some.injEq, Except.ok.injEq] at h
    subst h
    simp [hf]
  · rename_i i hf
    split at h
    · simp at h
    · rename_i hd
      simp only [Option.some.injEq, Except.ok.injEq] at h
      subst h
      simp [hf]

/-- With halt_encountered latched the fetch stage only clears the fetch
slot. -/
theorem fetchStage_halted {cu : ControlUnit} (hh : cu.halt_encountered = true) :
    fetchStage cu = some (Except.ok { cu with fetch_instruction := none }) := by
  unfold fetchStage
  rw [if_pos hh]

/-- Once halt_encountered is latched, a successful pipelined step never
fetches (the new fetch slot is empty), shifts every slot one stage forward,
preserves the latch and the driver flags, and reports program_is_running of
the new state. -/
theorem stepPipeline_halted_drain {cu cu2 : ControlUnit} {r : Bool}
    (hh : cu.halt_encountered = true)
    (h : stepPipeline cu = some (Except.ok (cu2, r))) :
    cu2.fetch_instruction = none ∧
    cu2.decode_instruction.isSome = cu.fetch_instruction.isSome ∧
    cu2.execute_instruction.isSome = cu.decode_instruction.isSome ∧
    cu2.access_mem_instruction.isSome = cu.execute_instruction.isSome ∧
    cu2.halt_encountered = true ∧
    cu2.first_instruction_loaded = cu.first_instruction_loaded ∧
    cu2.pipeline_enabled = cu.pipeline_enabled ∧
    r = programIsRunning cu2 := by
  unfold stepPipeline at h
  split at h
  · simp at h
  · simp at h
  · rename_i c1 hwb
    split at h
    · simp at h
    · simp at h
    · rename_i c2 ham
      split at h
      · simp at h
      · simp at h
      · rename_i c3 hex
        split at h
        · simp at h
        · simp at h
        · rename_i c4 hde
          obtain ⟨W1, W2, W3, W4, W5, W6, W7, W8⟩ := wbStage_ok hwb
          obtain ⟨A1, A2, A3, A4, A5, A6, A7⟩ := amStage_ok ham
          obtain ⟨E1, E2, E3, E4, E5, E6, E7⟩ := exStage_ok hex
          obtain ⟨D1, D2, D3, D4, D5, D6, D7⟩ := deStage_ok hde
          have h4halt : c4.halt_encountered = true := by
            rw [D5, E5, A5, W6]
            exact hh
          split at h
          · simp at h
          · simp at h
          · rename_i c5 hfe
            rw [fetchStage_halted h4halt] at hfe
            simp only [Option.some.injEq, Except.ok.injEq] at hfe
            subst hfe
            simp only [Option.some.injEq, Except.ok.injEq, Prod.mk.injEq] at h
            obtain ⟨hcu2, hr⟩ := h
            subst hcu2
            subst hr
            refine ⟨rfl, ?_, ?_, ?_, ?_, ?_, ?_, rfl⟩
            · show c4.decode_instruction.isSome = cu.fetch_instruction.isSome
              rw [D2, E1, A1, W1]
            · show c4.execute_instruction.isSome = cu.decode_instruction.isSome
              rw [D3, E3, A2, W2]
            · show c4.access_mem_instruction.isSome = cu.execute_instruction.isSome
              rw [D4, E4, A4, W3]
            · exact h4halt
            · show c4.first_instruction_loaded = cu.first_instruction_loaded
              rw [D6, E6, A6, W7]
            · show c4.pipeline_enabled = cu.pipeline_enabled
              rw [D7, E7, A7, W8]

/-- The drain property lifted to step(): step() additionally marks the first
instruction loaded. -/
theorem cuStep_halted_drain {cu cu2 : ControlUnit} {r : Bool}
    (hp : cu.pipeline_enabled = true)
    (hh : cu.halt_encountered = true)
    (h : cuStep cu = some (Except.ok (cu2, r))) :
    cu2.fetch_instruction = none ∧
    cu2.decode_instruction.isSome = cu.fetch_instruction.isSome ∧
    cu2.execute_instruction.isSome = cu.decode_instruction.isSome ∧
    cu2.access_mem_instruction.isSome = cu.execute_instruction.isSome ∧
    cu2.halt_encountered = true ∧
    cu2.first_instruction_loaded = true ∧
    cu2.pipeline_enabled = true ∧
    r = programIsRunning cu2 := by
  have hs : stepPipeline { cu with first_instruction_loaded := true } =
      some (Except.ok (cu2, r)) := by
    unfold cuStep at h
    rw [if_pos hp] at h
    exact h
  obtain ⟨F, D, E, A, H, FI, P, R⟩ := stepPipeline_halted_drain
    (show ({ cu with first_instruction_loaded := true }).halt_encountered = true
      from hh) hs
  exact ⟨F, D, E, A, H, FI, P.trans hp, R⟩

/-- C6: once a Halt has been fetched (halt_encountered latched, the Halt
object in the fetch slot), the subsequent pipelined steps never fetch again
and the slots drain one stage per step: the first three steps report the
program still running and the fourth, after the final instruction has
drained past write-back, reports it stopped. -/
theorem halt_drains_pipeline
    (cu cu1 cu2 cu3 cu4 : ControlUnit) (i : Inst) (r1 r2 r3 r4 : Bool)
    (hp : cu.pipeline_enabled = true)
    (hh : cu.halt_encountered = true)
    (hf : cu.fetch_instruction = some i)
    (h1 : cuStep cu = some (Except.ok (cu1, r1)))
    (h2 : cuStep cu1 = some (Except.ok (cu2, r2)))
    (h3 : cuStep cu2 = some (Except.ok (cu3, r3)))
    (h4 : cuStep cu3 = some (Except.ok (cu4, r4))) :
    cu1.fetch_instruction = none ∧ cu2.fetch_instruction = none ∧
    cu3.fetch_instruction = none ∧ cu4.fetch_instruction = none ∧
    r1 = true ∧ r2 = true ∧ r3 = true ∧ r4 = false := by
  obtain ⟨F1, D1, E1, A1, H1, FI1, P1, R1⟩ := cuStep_halted_drain hp hh h1
  obtain ⟨F2, D2, E2, A2, H2, FI2, P2, R2⟩ := cuStep_halted_drain P1 H1 h2
  obtain ⟨F3, D3, E3, A3, H3, FI3, P3, R3⟩ := cuStep_halted_drain P2 H2 h3
  obtain ⟨F4, D4, E4, A4, H4, FI4, P4, R4⟩ := cuStep_halted_drain P3 H3 h4
  refine ⟨F1, F2, F3, F4, ?_, ?_, ?_, ?_⟩
  · rw [R1]
    have hd : cu1.decode_instruction.isSome = true := by rw [D1, hf]; rfl
    simp [programIsRunning, P1, FI1, hd]
  · rw [R2]
    have hx : cu2.execute_instruction.isSome = true := by rw [E2, D1, hf]; rfl
    simp [programIsRunning, P2, FI2, hx]
  · rw [R3]
    have hm : cu3.access_mem_instruction.isSome = true := by rw [A3, E2, D1, hf]; rfl
    simp [programIsRunning, P3, FI3, hm]
  · rw [R4]
    have hd4 : cu4.decode_instruction.isSome = false := by rw [D4, F3]; rfl
    have hx4 : cu4.execute_instruction.isSome = false := by rw [E4, D3, F2]; rfl
    have hm4 : cu4.access_mem_instruction.isSome = false := by rw [A4, E3, D2, F1]; rfl
    simp [programIsRunning, P4, FI4, F4, hd4, hx4, hm4]

/-- Witness for C6 on the concrete state holding a fetched Halt: three
running steps, then stopped. -/
theorem halt_drains_pipeline_witness :
    c6cu1.fetch_instruction = none ∧ c6cu2.fetch_instruction = none ∧
    c6cu3.fetch_instruction = none ∧ c6cu4.fetch_instruction = none ∧
    true = true ∧ true = true ∧ true = true ∧ false = false :=
  halt_drains_pipeline c6cu0 c6cu1 c6cu2 c6cu3 c6cu4 Inst.halt true true true false
    (by decide) (by decide) (by decide) (by decide) (by decide) (by decide)
    (by decide)

end LEG
